import Mathlib

/-!
Verification development for the Thurgood Desktop Case.dev tool layer.

Shallow embedding of the client-side orchestration layer:
credential resolution (CaseDevClient.getApiKey), the authenticated
request executor (CaseDevClient.request), the three-step vault upload
pipeline (VaultUploadTool.execute), the vault search body construction
and result rendering (VaultSearchTool.execute), deep-research timeout
selection (LegalSearchTool.execute) and transcription mode validation
(TranscribeTool.execute).

Network effects are modelled by passing the outcome of each remote
exchange as an explicit argument, and each embedded operation returns,
besides its result, a trace of how many remote calls it issued, so that
claims of the form "no request is sent" are statable.
-/

/-- JavaScript truthiness of a possibly-absent string: `undefined`/`null`
and the empty string are falsy, every other string is truthy. -/
def truthy : Option String → Bool
  | none => false
  | some s => decide (s ≠ "")

/-- JavaScript nullish coalescing `a ?? b` on possibly-absent strings:
keeps `a` whenever it is present (even when it is the empty string). -/
def jsNullish (a b : Option String) : Option String :=
  match a with
  | some s => some s
  | none => b

/-- `Response.ok` of the fetch API: status in the inclusive range 200-299. -/
def httpOk (status : Nat) : Bool :=
  decide (200 ≤ status ∧ status < 300)

/-- A persisted authentication record as returned by `Auth.get "thurgood"`. -/
structure AuthRecord where
  type : String
  key : String
deriving DecidableEq, Repr

/-- The credential sources read by `CaseDevClient.getApiKey`: the two
environment variables, the persisted auth record for the thurgood
provider, and the provider API key from the configuration. -/
structure CredEnv where
  thurgoodApiKey : Option String
  casedevApiKey : Option String
  auth : Option AuthRecord
  configApiKey : Option String
deriving DecidableEq, Repr

/-- The config branch of `getApiKey`: `if (configKey) return configKey`. -/
def configKeyOf (env : CredEnv) : Option String :=
  if truthy env.configApiKey then env.configApiKey else none

/-- Embedding of `CaseDevClient.getApiKey`: environment variables first
(`THURGOOD_API_KEY ?? CASEDEV_API_KEY`, then a truthiness test), then the
persisted auth record when its type is "api", then the config key. -/
def getApiKey (env : CredEnv) : Option String :=
  let envKey := jsNullish env.thurgoodApiKey env.casedevApiKey
  if truthy envKey then envKey
  else
    match env.auth with
    | some a => if a.type == "api" then some a.key else configKeyOf env
    | none => configKeyOf env

/-- The key contributed by the auth record in the spec reading: a persisted
record of kind "api" supplies its key, anything else supplies nothing. -/
def authApiOf (a : Option AuthRecord) : Option String :=
  match a with
  | some r => if r.type == "api" then some r.key else none
  | none => none

/-- Credential resolution as the spec words it, for comparison with
`getApiKey`: first match wins among `THURGOOD_API_KEY`, `CASEDEV_API_KEY`,
the persisted api auth record, and the configured API key; absent when
none is present. -/
def resolveSpec (env : CredEnv) : Option String :=
  jsNullish (jsNullish (jsNullish env.thurgoodApiKey env.casedevApiKey)
    (authApiOf env.auth)) env.configApiKey

/-- A possibly-absent string source that, when present, holds a non-empty
value (the healthy shape of a configured credential). -/
def nonEmptyOpt (o : Option String) : Prop :=
  ∀ s, o = some s → s ≠ ""

/-- Error taxonomy of the layer, as observed in the thrown errors of the
source: missing credential, deadline abort, non-success HTTP status, and
any other failure. -/
inductive CaseDevError where
  | authError (msg : String)
  | timeoutError (timeoutMs : Nat)
  | httpError (status : Nat) (body : String)
  | other (msg : String)
deriving DecidableEq, Repr

/-- The decoded success payload of a request, tagged by the decoding the
caller requested (`responseType`). -/
inductive Decoded where
  | json (body : String)
  | text (body : String)
  | arraybuffer (body : String)
deriving DecidableEq, Repr

/-- The decoding requested for a response body. -/
inductive ResponseType where
  | json
  | text
  | arraybuffer
deriving DecidableEq, Repr

/-- The options record of `CaseDevClient.request` (defaults in the source:
method GET, timeout 30000 ms, responseType json). -/
structure RequestOptions where
  method : String
  body : Option String
  headers : List (String × String)
  timeout : Nat
  responseType : ResponseType
deriving DecidableEq, Repr

/-- `RequestOptions` with every option left at its source-level default. -/
def defaultRequestOptions : RequestOptions :=
  { method := "GET", body := none, headers := [], timeout := 30000,
    responseType := ResponseType.json }

/-- The observable pieces of one fetch response: status, whether reading
the body text succeeds, the body text, and whether it parses as JSON. -/
structure HttpResponse where
  status : Nat
  bodyReadOk : Bool
  body : String
  jsonParses : Bool
deriving DecidableEq, Repr

/-- How the single fetch of one request run turns out: aborted by the
deadline timer, failed with some other thrown error, or responded. -/
inductive FetchOutcome where
  | aborted
  | netError (msg : String)
  | responded (r : HttpResponse)
deriving DecidableEq, Repr

/-- What one run of `CaseDevClient.request` leaves behind: its result,
whether the abort timer was ever started, how many times `clearTimeout`
ran, and how many fetches were issued. -/
structure RequestTrace where
  result : Except CaseDevError Decoded
  timerStarted : Bool
  timerClears : Nat
  fetchCount : Nat
deriving Repr

/-- The abort timer is still running at exit iff it was started and no
`clearTimeout` ever ran. -/
def timerLeftRunning (t : RequestTrace) : Bool :=
  t.timerStarted && t.timerClears == 0

/-- Embedding of `CaseDevClient.request`: resolve the key (failing with an
auth error before any fetch when absent), start the abort timer, fetch,
clear the timer, check `response.ok` (reading the error body best-effort),
then decode per `responseType`; the catch block clears the timer again and
maps an abort to a timeout error carrying the configured timeout. -/
def request (cred : CredEnv) (opts : RequestOptions) (net : FetchOutcome) :
    RequestTrace :=
  match getApiKey cred with
  | none =>
    { result := Except.error (CaseDevError.authError "Case.dev API key not found"),
      timerStarted := false, timerClears := 0, fetchCount := 0 }
  | some _ =>
    match net with
    | FetchOutcome.aborted =>
      { result := Except.error (CaseDevError.timeoutError opts.timeout),
        timerStarted := true, timerClears := 1, fetchCount := 1 }
    | FetchOutcome.netError m =>
      { result := Except.error (CaseDevError.other m),
        timerStarted := true, timerClears := 1, fetchCount := 1 }
    | FetchOutcome.responded r =>
      if httpOk r.status then
        match opts.responseType with
        | ResponseType.arraybuffer =>
          { result := Except.ok (Decoded.arraybuffer r.body),
            timerStarted := true, timerClears := 1, fetchCount := 1 }
        | ResponseType.text =>
          { result := Except.ok (Decoded.text r.body),
            timerStarted := true, timerClears := 1, fetchCount := 1 }
        | ResponseType.json =>
          if r.jsonParses then
            { result := Except.ok (Decoded.json r.body),
              timerStarted := true, timerClears := 1, fetchCount := 1 }
          else
            { result := Except.error (CaseDevError.other "invalid json body"),
              timerStarted := true, timerClears := 2, fetchCount := 1 }
      else
        { result := Except.error (CaseDevError.httpError r.status
            (if r.bodyReadOk then r.body else "Unknown error")),
          timerStarted := true, timerClears := 2, fetchCount := 1 }

/-- The upload-slot response of `POST /vault/(id)/upload`. -/
structure VaultUploadResponse where
  objectId : String
  uploadUrl : String
  expiresIn : Nat
  s3Key : String
  auto_index : Bool
  next_step : Option String
deriving DecidableEq, Repr

/-- Counts of the remote calls one run of the upload pipeline issued. -/
structure UploadCalls where
  slotRequests : Nat
  s3Puts : Nat
  ingestRequests : Nat
deriving DecidableEq, Repr

/-- The result contract of `VaultUploadTool.execute`. -/
structure UploadResult where
  objectId : String
  filename : String
  sizeBytes : Nat
  autoIndex : Bool
  ingestStatus : String
deriving DecidableEq, Repr

/-- Embedding of `VaultUploadTool.execute` steps 1-3: request a slot, PUT
the bytes to the presigned URL, and, when the slot says a next step exists
and auto-index is on, trigger ingestion, mapping a trigger failure to the
soft marker "failed to start" rather than an error; a non-success PUT
status throws and ingestion is never reached. The outcome of each remote
exchange is passed in, and the issued calls are counted. -/
def vaultUploadExecute (filename : String) (sizeBytes : Nat)
    (slot : Except CaseDevError VaultUploadResponse)
    (s3Status : Nat) (ingest : Except CaseDevError Unit) :
    Except CaseDevError UploadResult × UploadCalls :=
  match slot with
  | Except.error e => (Except.error e, ⟨1, 0, 0⟩)
  | Except.ok up =>
    if httpOk s3Status then
      if truthy up.next_step && up.auto_index then
        match ingest with
        | Except.ok _ =>
          (Except.ok ⟨up.objectId, filename, sizeBytes, up.auto_index, "started"⟩,
            ⟨1, 1, 1⟩)
        | Except.error _ =>
          (Except.ok ⟨up.objectId, filename, sizeBytes, up.auto_index, "failed to start"⟩,
            ⟨1, 1, 1⟩)
      else
        (Except.ok ⟨up.objectId, filename, sizeBytes, up.auto_index, "skipped"⟩,
          ⟨1, 1, 0⟩)
    else
      (Except.error (CaseDevError.httpError s3Status "Failed to upload file to S3"),
        ⟨1, 1, 0⟩)

/-- The closed set of search methods of `VaultSearchTool`. -/
inductive SearchMethod where
  | hybrid
  | fast
  | global
  | entity
  | «local»
  | vector
  | graph
deriving DecidableEq, Repr

/-- The caller-facing parameters of `VaultSearchTool.execute`. -/
structure SearchParams where
  vault_id : String
  query : String
  method : Option SearchMethod
  top_k : Option Int
  object_id : Option String
deriving DecidableEq, Repr

/-- The outgoing body of `POST /vault/(id)/search`; `filters` is `none`
when the filter object would be empty. -/
structure VaultSearchBody where
  query : String
  method : SearchMethod
  topK : Int
  filters : Option (List (String × String))
deriving DecidableEq, Repr

/-- Embedding of the request-body construction of
`VaultSearchTool.execute`: method defaults to hybrid, `topK` is
`Math.min(Math.max(top_k ?? 10, 1), 100)`, and the object-id filter is
included only when a truthy object id was supplied. -/
def vaultSearchBody (p : SearchParams) : VaultSearchBody :=
  let filters : List (String × String) :=
    match p.object_id with
    | some oid => if oid ≠ "" then [("object_id", oid)] else []
    | none => []
  { query := p.query
    method := p.method.getD SearchMethod.hybrid
    topK := min (max (p.top_k.getD 10) 1) 100
    filters := if filters.length > 0 then some filters else none }

/-- One chunk of a vault search response, with its optional scores. -/
structure VaultSearchResult where
  text : String
  object_id : String
  chunk_index : Nat
  score : Option ℚ
  hybridScore : Option ℚ
deriving DecidableEq, Repr

/-- One rendered result entry with its display confidence. -/
structure ChunkDisplay where
  confidence : ℤ
  object_id : String
  chunk_index : Nat
  text : String
deriving DecidableEq, Repr

/-- Embedding of the per-chunk rendering of `VaultSearchTool.execute`:
`score = chunk.hybridScore ?? chunk.score ?? 0` and
`confidence = Math.round(score * 100)`. -/
def displayChunk (c : VaultSearchResult) : ChunkDisplay :=
  let score := c.hybridScore.getD (c.score.getD 0)
  { confidence := round (score * 100)
    object_id := c.object_id
    chunk_index := c.chunk_index
    text := c.text }

/-- Embedding of the result loop of `VaultSearchTool.execute`: the chunks
are rendered front to back, in the order the backend returned them. -/
def renderChunks : List VaultSearchResult → List ChunkDisplay
  | [] => []
  | c :: rest => displayChunk c :: renderChunks rest

/-- The research workload modes of `LegalSearchTool`. -/
inductive ResearchMode where
  | fast
  | normal
  | pro
deriving DecidableEq, Repr

/-- Embedding of the timeout selection of `LegalSearchTool.execute`:
pro gets 360000 ms, normal gets 180000 ms, anything else (fast or an
unspecified mode) gets 60000 ms. -/
def legalSearchTimeout (mode : Option ResearchMode) : Nat :=
  match mode with
  | some ResearchMode.pro => 360000
  | some ResearchMode.normal => 180000
  | _ => 60000

/-- Embedding of the model field sent by `LegalSearchTool.execute`:
`params.mode ?? "normal"`. -/
def legalSearchModelSent (mode : Option ResearchMode) : ResearchMode :=
  mode.getD ResearchMode.normal

/-- The caller-facing parameters of `TranscribeTool.execute`. -/
structure TranscribeParams where
  vault_id : Option String
  object_id : Option String
  audio_url : Option String
  format : Option String
  language_code : Option String
  speaker_labels : Option Bool
  speakers_expected : Option Int
  word_boost : Option (List String)
deriving DecidableEq, Repr

/-- `isVaultMode` of `TranscribeTool.execute`: both `vault_id` and
`object_id` are supplied (and truthy). -/
def isVaultMode (p : TranscribeParams) : Bool :=
  truthy p.vault_id && truthy p.object_id

/-- The mode-determining part of the body sent to
`POST /voice/transcription`. -/
structure TranscribeBody where
  vault_id : Option String
  object_id : Option String
  format : Option String
  audio_url : Option String
deriving DecidableEq, Repr

/-- Outcome of `TranscribeTool.execute` before the network exchange: either
the local parameter-validation error result, or a submitted job request
with the body that was sent. -/
inductive TranscribeOutcome where
  | validationError (msg : String)
  | submitted (body : TranscribeBody)
deriving DecidableEq, Repr

/-- Embedding of the mode validation and body construction of
`TranscribeTool.execute`; the second component counts the backend requests
issued. Vault mode takes the vault fields and `format ?? "json"`; direct
mode takes `audio_url`; when neither mode is supplied the tool returns the
error result without issuing any request. -/
def transcribeExecute (p : TranscribeParams) : TranscribeOutcome × Nat :=
  if !(isVaultMode p) && !(truthy p.audio_url) then
    (TranscribeOutcome.validationError "Either vault_id + object_id OR audio_url is required.", 0)
  else if isVaultMode p then
    (TranscribeOutcome.submitted
      ⟨p.vault_id, p.object_id, some (p.format.getD "json"), none⟩, 1)
  else
    (TranscribeOutcome.submitted ⟨none, none, none, p.audio_url⟩, 1)

/-- A transcription invocation supplying the vault pair and a direct URL
at the same time. -/
def bothModesParams : TranscribeParams :=
  ⟨some "vault_abc", some "obj_123", some "https://example.com/depo.mp3",
    none, none, none, none, none⟩

/-- A credential environment with no source configured at all. -/
def emptyCredEnv : CredEnv := ⟨none, none, none, none⟩

/-- A credential environment whose only source is `THURGOOD_API_KEY`. -/
def envOnlyCredEnv : CredEnv := ⟨some "env-key", none, none, none⟩

/-- A credential environment in which every source is present at once. -/
def allSourcesCredEnv : CredEnv :=
  ⟨some "env-key-1", some "env-key-2", some ⟨"api", "auth-key"⟩, some "config-key"⟩

/-- A transcription invocation supplying neither the vault pair nor a
direct URL. -/
def neitherModeParams : TranscribeParams :=
  ⟨none, none, none, none, none, none, none, none⟩

/-- Claim C5: for every caller-supplied top_k value (including zero,
negative and oversized values), the topK placed in the outgoing search
body is in the inclusive interval from 1 to 100; in particular input 500
yields 100 and input 0 yields 1. -/
theorem vaultSearch_topK_clamped :
    (∀ p : SearchParams,
      1 ≤ (vaultSearchBody p).topK ∧ (vaultSearchBody p).topK ≤ 100) ∧
    (vaultSearchBody ⟨"v", "q", none, some 500, none⟩).topK = 100 ∧
    (vaultSearchBody ⟨"v", "q", none, some 0, none⟩).topK = 1 := by
  refine ⟨fun p => ?_, by decide, by decide⟩
  simp only [vaultSearchBody]
  omega

/-- Claim C10: for every vault search invoked without a top_k parameter,
the topK sent in the outgoing body is exactly 10. -/
theorem vaultSearch_topK_default (p : SearchParams) (h : p.top_k = none) :
    (vaultSearchBody p).topK = 10 := by
  simp [vaultSearchBody, h]

/-- Witness for claim C10 at a concrete search invocation with top_k
omitted. -/
theorem vaultSearch_topK_default_witness :
    (vaultSearchBody ⟨"vault_abc", "termination clause", none, none, none⟩).topK = 10 :=
  vaultSearch_topK_default ⟨"vault_abc", "termination clause", none, none, none⟩ rfl

/-- Claim C9: for every search-result chunk, the display confidence equals
round of 100 times the hybrid score when present, else the plain score
when present, else 0; both scores absent yields confidence 0; and the
rendered list keeps the chunks in the order the backend returned them. -/
theorem vaultSearch_confidence :
    (∀ c : VaultSearchResult,
      (displayChunk c).confidence =
        round ((100 : ℚ) * (c.hybridScore.getD (c.score.getD 0)))) ∧
    (∀ c : VaultSearchResult, c.hybridScore = none → c.score = none →
      (displayChunk c).confidence = 0) ∧
    (∀ cs : List VaultSearchResult, renderChunks cs = cs.map displayChunk) := by
  refine ⟨fun c => ?_, fun c h1 h2 => ?_, fun cs => ?_⟩
  · simp [displayChunk, mul_comm]
  · simp [displayChunk, h1, h2]
  · induction cs with
    | nil => rfl
    | cons c rest ih => simp [renderChunks, ih]

/-- Witness for claim C9 at a concrete chunk with both scores absent. -/
theorem vaultSearch_confidence_witness :
    (displayChunk ⟨"some text", "obj_1", 0, none, none⟩).confidence = 0 :=
  vaultSearch_confidence.2.1 ⟨"some text", "obj_1", 0, none, none⟩ rfl rfl

/-- Claim C6 is violated by the code: the timeouts for the explicitly
selected modes are 60000, 180000 and 360000 ms as claimed, but when the
mode is left unspecified the body sent to the backend carries the
balanced mode ("normal") while the timeout handed to the request executor
is 60000 ms, not the 180000 ms tier of the balanced mode. -/
theorem legalSearch_default_timeout_mismatch :
    legalSearchTimeout (some ResearchMode.fast) = 60000 ∧
    legalSearchTimeout (some ResearchMode.normal) = 180000 ∧
    legalSearchTimeout (some ResearchMode.pro) = 360000 ∧
    legalSearchModelSent none = ResearchMode.normal ∧
    legalSearchTimeout none = 60000 ∧
    legalSearchTimeout none ≠ legalSearchTimeout (some ResearchMode.normal) := by
  decide

/-- Claim C1: for every upload whose byte transfer to the storage URL
succeeds but whose ingestion-trigger request fails, the upload still
returns a success result whose ingestion outcome is "failed to start" and
whose objectId is the one issued with the upload slot; the trigger failure
is not propagated as an error. -/
theorem vaultUpload_soft_ingest_failure (filename : String) (sizeBytes : Nat)
    (up : VaultUploadResponse) (s3Status : Nat) (e : CaseDevError)
    (hOk : httpOk s3Status = true)
    (hNext : truthy up.next_step = true) (hAuto : up.auto_index = true) :
    (vaultUploadExecute filename sizeBytes (Except.ok up) s3Status
        (Except.error e)).1 =
      Except.ok ⟨up.objectId, filename, sizeBytes, up.auto_index, "failed to start"⟩ := by
  simp [vaultUploadExecute, hOk, hNext, hAuto]

/-- Witness for claim C1 at a concrete upload slot, a 200 transfer status
and a failing ingestion trigger. -/
theorem vaultUpload_soft_ingest_failure_witness :
    (vaultUploadExecute "depo.mp3" 2048
        (Except.ok ⟨"obj_1", "https://s3/u", 3600, "k", true, some "ingest"⟩)
        200 (Except.error (CaseDevError.httpError 500 "boom"))).1 =
      Except.ok ⟨"obj_1", "depo.mp3", 2048, true, "failed to start"⟩ :=
  vaultUpload_soft_ingest_failure "depo.mp3" 2048
    ⟨"obj_1", "https://s3/u", 3600, "k", true, some "ingest"⟩ 200
    (CaseDevError.httpError 500 "boom") (by decide) (by decide) rfl

/-- Claim C2: for every upload whose byte-transfer step returns a
non-success HTTP status, the upload fails with an http error carrying that
status, no ingestion-trigger request is ever issued and the transfer is
attempted exactly once (no retry). -/
theorem vaultUpload_transfer_failure (filename : String) (sizeBytes : Nat)
    (up : VaultUploadResponse) (s3Status : Nat)
    (ingest : Except CaseDevError Unit)
    (hBad : httpOk s3Status = false) :
    (vaultUploadExecute filename sizeBytes (Except.ok up) s3Status ingest).1 =
      Except.error (CaseDevError.httpError s3Status "Failed to upload file to S3") ∧
    (vaultUploadExecute filename sizeBytes (Except.ok up) s3Status
        ingest).2.ingestRequests = 0 ∧
    (vaultUploadExecute filename sizeBytes (Except.ok up) s3Status
        ingest).2.s3Puts = 1 := by
  simp [vaultUploadExecute, hBad]

/-- Witness for claim C2 at a concrete upload slot and a 403 transfer
status. -/
theorem vaultUpload_transfer_failure_witness :
    (vaultUploadExecute "brief.pdf" 1024
        (Except.ok ⟨"obj_2", "https://s3/u", 3600, "k", true, some "ingest"⟩)
        403 (Except.ok ())).1 =
      Except.error (CaseDevError.httpError 403 "Failed to upload file to S3") ∧
    (vaultUploadExecute "brief.pdf" 1024
        (Except.ok ⟨"obj_2", "https://s3/u", 3600, "k", true, some "ingest"⟩)
        403 (Except.ok ())).2.ingestRequests = 0 ∧
    (vaultUploadExecute "brief.pdf" 1024
        (Except.ok ⟨"obj_2", "https://s3/u", 3600, "k", true, some "ingest"⟩)
        403 (Except.ok ())).2.s3Puts = 1 :=
  vaultUpload_transfer_failure "brief.pdf" 1024
    ⟨"obj_2", "https://s3/u", 3600, "k", true, some "ingest"⟩ 403
    (Except.ok ()) (by decide)

/-- Claim C3: for every request spec, when credential resolution yields no
key the executor fails with an auth error and no fetch is ever invoked on
that call path, whatever operation (options and network behaviour) was
built on it. -/
theorem request_auth_noFetch (cred : CredEnv) (opts : RequestOptions)
    (net : FetchOutcome) (h : getApiKey cred = none) :
    (request cred opts net).result =
      Except.error (CaseDevError.authError "Case.dev API key not found") ∧
    (request cred opts net).fetchCount = 0 := by
  simp [request, h]

/-- Witness for claim C3: with no credential source configured, a request
with default options and a would-be successful network fails with the auth
error and issues no fetch. -/
theorem request_auth_noFetch_witness :
    (request emptyCredEnv defaultRequestOptions
        (FetchOutcome.responded ⟨200, true, "ok", true⟩)).result =
      Except.error (CaseDevError.authError "Case.dev API key not found") ∧
    (request emptyCredEnv defaultRequestOptions
        (FetchOutcome.responded ⟨200, true, "ok", true⟩)).fetchCount = 0 :=
  request_auth_noFetch emptyCredEnv defaultRequestOptions
    (FetchOutcome.responded ⟨200, true, "ok", true⟩) rfl

/-- Claim C8: on every exit path of the request executor — successful
decode, non-success status, abort, or any thrown error — the per-request
abort timer is never left running; and when the exchange is aborted by the
deadline the failure is a timeout error carrying the configured timeout of
that call. -/
theorem request_timer_cleanup (cred : CredEnv) (opts : RequestOptions)
    (net : FetchOutcome) :
    timerLeftRunning (request cred opts net) = false ∧
    ((getApiKey cred).isSome = true → net = FetchOutcome.aborted →
      (request cred opts net).result =
        Except.error (CaseDevError.timeoutError opts.timeout)) := by
  constructor
  · cases h : getApiKey cred with
    | none => simp [request, h, timerLeftRunning]
    | some k =>
      cases net with
      | aborted => simp [request, h, timerLeftRunning]
      | netError m => simp [request, h, timerLeftRunning]
      | responded r =>
        cases hok : httpOk r.status with
        | false => simp [request, h, hok, timerLeftRunning]
        | true =>
          cases hrt : opts.responseType with
          | json =>
            cases hjp : r.jsonParses with
            | false => simp [request, h, hok, hrt, hjp, timerLeftRunning]
            | true => simp [request, h, hok, hrt, hjp, timerLeftRunning]
          | text => simp [request, h, hok, hrt, timerLeftRunning]
          | arraybuffer => simp [request, h, hok, hrt, timerLeftRunning]
  · intro hsome habort
    cases h : getApiKey cred with
    | none => simp [h] at hsome
    | some k => subst habort; simp [request, h]

/-- Witness for claim C8: with a configured key and an aborted exchange,
the timer is not left running and the failure is the timeout error with
the call's 30000 ms timeout. -/
theorem request_timer_cleanup_witness :
    timerLeftRunning (request envOnlyCredEnv defaultRequestOptions
      FetchOutcome.aborted) = false ∧
    (request envOnlyCredEnv defaultRequestOptions FetchOutcome.aborted).result =
      Except.error (CaseDevError.timeoutError 30000) :=
  ⟨(request_timer_cleanup envOnlyCredEnv defaultRequestOptions
      FetchOutcome.aborted).1,
    (request_timer_cleanup envOnlyCredEnv defaultRequestOptions
      FetchOutcome.aborted).2 (by decide) rfl⟩

/-- Claim C4: for every combination of present and absent credential
sources (each present source holding a non-empty key), `getApiKey` returns
the highest-precedence present source — `THURGOOD_API_KEY`, else
`CASEDEV_API_KEY`, else a persisted auth record of kind "api", else the
configured API key — and absent when none is present; as a total function
it never throws. This is stated as agreement with `resolveSpec`, the
first-match-wins resolution the spec words describe. -/
theorem getApiKey_precedence (env : CredEnv)
    (hT : nonEmptyOpt env.thurgoodApiKey) (hC : nonEmptyOpt env.casedevApiKey)
    (hK : nonEmptyOpt env.configApiKey) :
    getApiKey env = resolveSpec env := by
  cases hT0 : env.thurgoodApiKey with
  | some s =>
    have hs : s ≠ "" := hT s hT0
    simp [getApiKey, resolveSpec, jsNullish, hT0, truthy, hs]
  | none =>
    cases hC0 : env.casedevApiKey with
    | some s =>
      have hs : s ≠ "" := hC s hC0
      simp [getApiKey, resolveSpec, jsNullish, hT0, hC0, truthy, hs]
    | none =>
      cases hA : env.auth with
      | some a =>
        cases hty : a.type == "api" with
        | true =>
          simp [getApiKey, resolveSpec, jsNullish, hT0, hC0, hA, authApiOf,
            hty, truthy]
        | false =>
          cases hK0 : env.configApiKey with
          | some s =>
            have hs : s ≠ "" := hK s hK0
            simp [getApiKey, resolveSpec, jsNullish, hT0, hC0, hA, authApiOf,
              hty, configKeyOf, hK0, truthy, hs]
          | none =>
            simp [getApiKey, resolveSpec, jsNullish, hT0, hC0, hA, authApiOf,
              hty, configKeyOf, hK0, truthy]
      | none =>
        cases hK0 : env.configApiKey with
        | some s =>
          have hs : s ≠ "" := hK s hK0
          simp [getApiKey, resolveSpec, jsNullish, hT0, hC0, hA, authApiOf,
            configKeyOf, hK0, truthy, hs]
        | none =>
          simp [getApiKey, resolveSpec, jsNullish, hT0, hC0, hA, authApiOf,
            configKeyOf, hK0, truthy]

/-- Witness for claim C4: with every source present at once, resolution
agrees with the spec-side first-match-wins resolution and picks the
`THURGOOD_API_KEY` value. -/
theorem getApiKey_precedence_witness :
    getApiKey allSourcesCredEnv = resolveSpec allSourcesCredEnv ∧
    getApiKey allSourcesCredEnv = some "env-key-1" :=
  ⟨getApiKey_precedence allSourcesCredEnv
      (by intro s hs; simp [allSourcesCredEnv] at hs; subst hs; decide)
      (by intro s hs; simp [allSourcesCredEnv] at hs; subst hs; decide)
      (by intro s hs; simp [allSourcesCredEnv] at hs; subst hs; decide),
    by decide⟩

/-- Claim C7 is violated by the code: supplying the vault pair and a
direct audio URL at the same time is not rejected — the tool proceeds in
vault mode and issues the backend request, so the entry modes are not
mutually exclusive as claimed. -/
theorem transcribe_both_modes_counterexample :
    isVaultMode bothModesParams = true ∧
    truthy bothModesParams.audio_url = true ∧
    transcribeExecute bothModesParams =
      (TranscribeOutcome.submitted
        ⟨some "vault_abc", some "obj_123", some "json", none⟩, 1) := by
  decide

/-- Claim C7 as amended: a transcription invocation supplying neither the
vault pair nor a direct audio URL fails with the local validation error
before any request is sent; when the vault pair is supplied (even together
with an audio URL) the vault mode takes precedence and one request is sent
with the vault-mode body. -/
theorem transcribe_mode_validation (p : TranscribeParams) :
    (isVaultMode p = false → truthy p.audio_url = false →
      transcribeExecute p =
        (TranscribeOutcome.validationError
          "Either vault_id + object_id OR audio_url is required.", 0)) ∧
    (isVaultMode p = true →
      transcribeExecute p =
        (TranscribeOutcome.submitted
          ⟨p.vault_id, p.object_id, some (p.format.getD "json"), none⟩, 1)) := by
  constructor
  · intro h1 h2
    simp [transcribeExecute, h1, h2]
  · intro h1
    simp [transcribeExecute, h1]

/-- Witness for the amended claim C7: invoking transcription with neither
mode yields the validation error and zero backend requests. -/
theorem transcribe_mode_validation_witness :
    transcribeExecute neitherModeParams =
      (TranscribeOutcome.validationError
        "Either vault_id + object_id OR audio_url is required.", 0) :=
  (transcribe_mode_validation neitherModeParams).1 rfl rfl
